import Mathlib

/-!
Verification of the `auramed` ai-service clinical engine
(`src/ai-service/services/risk_scorer.py`, `drug_interaction_checker.py`,
`symptom_analyzer.py`).

The Python code is shallowly embedded: strings are Lean `String`s
(`List Char` underneath), Python floats are modelled as `ℚ`, Python ints
as `Int`/`Nat`, dictionaries as association lists in source order, and
Python's truncating `int()` as `pyInt`.  Regular-expression substitutions
from the source are implemented as recursive character-list scans that
reproduce the leftmost-match semantics of `re.sub` for the concrete
patterns appearing in the source (`^`/`$` anchoring, greedy `\s+`, the
`$`-before-final-newline rule, and ordered alternation).
-/

/- ===================== Python string primitives ===================== -/

/-- Python's `\s` class and `str.strip` whitespace, restricted to the ASCII
whitespace characters (space, tab, newline, carriage return, vertical tab,
form feed). -/
def isPySpace (c : Char) : Bool :=
  c = ' ' || c = '\t' || c = '\n' || c = '\r' || c = Char.ofNat 11 || c = Char.ofNat 12

/-- Python `str.lower`, modelled on the ASCII range via `Char.toLower`. -/
def pyLower (cs : List Char) : List Char := cs.map Char.toLower

/-- Python `str.strip`: remove leading and trailing whitespace. -/
def pyStrip (cs : List Char) : List Char :=
  (((cs.dropWhile isPySpace).reverse).dropWhile isPySpace).reverse

/-- Does the second list start with the first one? -/
def startsWithChars : List Char → List Char → Bool
  | [], _ => true
  | _ :: _, [] => false
  | p :: ps, c :: cs => p = c && startsWithChars ps cs

/-- Substring containment of `pat` in `cs` (Python's `in` on strings). -/
def containsSub (pat : List Char) : List Char → Bool
  | [] => pat.isEmpty
  | c :: cs => startsWithChars pat (c :: cs) || containsSub pat cs

/-- Python `pat in hay` for strings. -/
def strContains (hay pat : String) : Bool := containsSub pat.data hay.data

/-- Python `s.lower()` at `String` level. -/
def pyLowerStr (s : String) : String := String.mk (pyLower s.data)

/- ============ drug-name normalization (drug_interaction_checker.py) ============ -/

/-- Alternatives of the dose/form suffix regex
`\s+(mg|mcg|g|ml|tablets?|capsules?|injection).*$`, with the optional `s`
expanded and listed in the engine's backtracking preference order. -/
def unitWords : List (List Char) :=
  ["mg".data, "mcg".data, "g".data, "ml".data,
   "tablets".data, "tablet".data, "capsules".data, "capsule".data,
   "injection".data]

/-- Given the text following a whitespace run, decide whether the dose-suffix
regex matches there, and if so return the residue the substitution leaves
behind (`.*` cannot cross a newline and `$` also matches just before a final
newline, so a final newline survives the deletion). -/
def doseResidue (rest : List Char) : Option (List Char) :=
  match unitWords.find?
      (fun u => startsWithChars u rest && !(((rest.drop u.length).dropLast).contains '\n')) with
  | some u => some (if (rest.drop u.length).getLast? = some '\n' then ['\n'] else [])
  | none => none

/-- Source `re.sub(r'\s+(mg|mcg|g|ml|tablets?|capsules?|injection).*$', '', s)`:
delete from the leftmost whitespace run that is followed by a unit token. -/
def stripDoseSuffix : List Char → List Char
  | [] => []
  | c :: cs =>
    if isPySpace c then
      match doseResidue (cs.dropWhile isPySpace) with
      | some residue => residue
      | none => c :: stripDoseSuffix cs
    else c :: stripDoseSuffix cs

/-- Auxiliary scan for `re.sub(r'\s+', '_', s)`; the flag records whether the
previous character was whitespace (i.e. we are inside a run that has already
emitted its underscore). -/
def collapseAux : Bool → List Char → List Char
  | _, [] => []
  | prev, c :: cs =>
    if isPySpace c then
      (if prev then collapseAux true cs else '_' :: collapseAux true cs)
    else c :: collapseAux false cs

/-- Source `re.sub(r'\s+', '_', s)`: each maximal whitespace run becomes one `_`. -/
def collapseSpaces (cs : List Char) : List Char := collapseAux false cs

/-- The `drug_mappings` alias table of `_normalize_drug_name`. -/
def drug_mappings : List (String × String) :=
  [("acetaminophen", "acetaminophen"),
   ("paracetamol", "acetaminophen"),
   ("tylenol", "acetaminophen"),
   ("advil", "ibuprofen"),
   ("motrin", "ibuprofen"),
   ("aleve", "naproxen"),
   ("coumadin", "warfarin"),
   ("glucophage", "metformin"),
   ("prinivil", "lisinopril"),
   ("zestril", "lisinopril"),
   ("zocor", "simvastatin")]

/-- Python `m.get(k, k)` over an association list. -/
def aliasApply (m : List (String × String)) (k : String) : String :=
  match m.find? (fun p => p.1 == k) with
  | some p => p.2
  | none => k

/-- Source `DrugInteractionChecker._normalize_drug_name`. -/
def normalize_drug_name (drug_name : String) : String :=
  let normalized := pyStrip (pyLower drug_name.data)
  let normalized := stripDoseSuffix normalized
  let normalized := collapseSpaces normalized
  aliasApply drug_mappings (String.mk normalized)

/-- The `condition_mappings` alias table of `_normalize_condition`. -/
def condition_mappings : List (String × String) :=
  [("kidney_failure", "kidney_disease_severe"),
   ("renal_failure", "kidney_disease_severe"),
   ("liver_failure", "liver_disease"),
   ("hepatic_failure", "liver_disease"),
   ("heart_failure", "heart_failure_severe"),
   ("congestive_heart_failure", "heart_failure_severe"),
   ("bleeding", "active_bleeding"),
   ("hemorrhage", "active_bleeding")]

/-- Source `DrugInteractionChecker._normalize_condition`. -/
def normalize_condition (condition : String) : String :=
  let normalized := pyStrip (pyLower condition.data)
  let normalized := collapseSpaces normalized
  aliasApply condition_mappings (String.mk normalized)

/- ============ symptom normalization (symptom_analyzer.py) ============ -/

/-- Alternatives of `^(i have|experiencing|feeling|severe|mild|chronic)\s+`.
No alternative is a prefix of another, so the consumed length is
unambiguous. -/
def leadFillerWords : List (List Char) :=
  ["i have".data, "experiencing".data, "feeling".data,
   "severe".data, "mild".data, "chronic".data]

/-- Source `re.sub(r'^(i have|experiencing|feeling|severe|mild|chronic)\s+', '', s)`:
remove one leading filler word and the whitespace run after it (the `^`
anchor limits the substitution to a single leftmost occurrence). -/
def stripLeadingFiller (cs : List Char) : List Char :=
  match leadFillerWords.find?
      (fun w => startsWithChars w cs &&
        (match cs.drop w.length with
         | [] => false
         | d :: _ => isPySpace d)) with
  | some w => (cs.drop w.length).dropWhile isPySpace
  | none => cs

/-- Alternatives of `\s+(pain|ache|aches|symptoms?)$`, with the optional `s`
expanded. -/
def tailFillerWords : List (List Char) :=
  ["pain".data, "ache".data, "aches".data, "symptoms".data, "symptom".data]

/-- Source `re.sub(r'\s+(pain|ache|aches|symptoms?)$', '', s)`: delete the leftmost
whitespace run whose remaining text is exactly a filler word (`$` also
matches just before a final newline, which then survives). -/
def stripTrailingFiller : List Char → List Char
  | [] => []
  | c :: cs =>
    if isPySpace c then
      let rest := cs.dropWhile isPySpace
      if tailFillerWords.any (fun w => rest = w) then []
      else if tailFillerWords.any (fun w => rest = w ++ ['\n']) then ['\n']
      else c :: stripTrailingFiller cs
    else c :: stripTrailingFiller cs

/-- Source `SymptomAnalyzer._normalize_symptom`. -/
def normalize_symptom (symptom : String) : String :=
  let s := pyStrip (pyLower symptom.data)
  let s := stripLeadingFiller s
  let s := stripTrailingFiller s
  String.mk s

/- ===================== RiskScorer (risk_scorer.py) ===================== -/

/-- Source `RiskScorer.symptom_weights`, in the source's dictionary insertion
order (the first substring hit wins). -/
def symptom_weights : List (String × ℚ) :=
  [("chest pain", 85), ("difficulty breathing", 80), ("severe headache", 75),
   ("blood in stool", 70), ("blood in urine", 70), ("high fever", 65),
   ("severe abdominal pain", 65), ("loss of consciousness", 95),
   ("stroke symptoms", 95), ("heart attack symptoms", 95),
   ("severe allergic reaction", 90), ("shortness of breath", 60),
   ("persistent cough", 40), ("nausea", 30), ("headache", 35),
   ("fatigue", 25), ("mild fever", 30), ("sore throat", 20),
   ("runny nose", 15)]

/-- Source `RiskScorer.age_multipliers`: bands with inclusive lower and exclusive
upper bound. -/
def age_multipliers : List ((Int × Int) × ℚ) :=
  [((0, 2), 13/10), ((2, 12), 11/10), ((12, 18), 1), ((18, 65), 1),
   ((65, 80), 12/10), ((80, 120), 14/10)]

/-- Source `RiskScorer.high_risk_conditions`. -/
def high_risk_conditions : List (String × ℚ) :=
  [("heart attack", 95), ("stroke", 95), ("pulmonary embolism", 90),
   ("sepsis", 90), ("anaphylaxis", 90), ("pneumonia", 70),
   ("appendicitis", 75), ("meningitis", 85), ("diabetic ketoacidosis", 80)]

/-- The `high_risk_history` keyword list of `_get_history_multiplier`. -/
def high_risk_history : List String :=
  ["diabetes", "hypertension", "heart disease", "cancer", "kidney disease",
   "liver disease", "autoimmune", "copd", "asthma", "stroke", "heart attack"]

/-- The per-symptom weight of the loop body in `_calculate_symptom_risk`:
first `key_symptom in symptom.lower()` hit in table order, else the
default 25. -/
def symptom_term_weight (symptom : String) : ℚ :=
  match symptom_weights.find? (fun kv => strContains (pyLowerStr symptom) kv.1) with
  | some kv => kv.2
  | none => 25

/-- Source `RiskScorer._calculate_symptom_risk`.  Note the source's conditional
chain: `if symptom_count > 3` is tested before `elif symptom_count > 5`,
so the 1.4 branch is unreachable. -/
def calculate_symptom_risk (symptoms : List String) : ℚ :=
  let total_risk : ℚ := (symptoms.map symptom_term_weight).sum
  let symptom_count := symptoms.length
  let total_risk :=
    if symptom_count > 3 then total_risk * (12/10)
    else if symptom_count > 5 then total_risk * (14/10)
    else total_risk
  min (if symptom_count > 0 then total_risk / symptom_count else 0) 100

/-- Source `RiskScorer._calculate_condition_risk`: max over conditions of the first
substring hit in `high_risk_conditions` (default 40); 0 for an empty list. -/
def calculate_condition_risk (conditions : List String) : ℚ :=
  if conditions.isEmpty then 0
  else
    conditions.foldl
      (fun max_risk condition =>
        match high_risk_conditions.find? (fun kv => strContains (pyLowerStr condition) kv.1) with
        | some kv => max max_risk kv.2
        | none => max max_risk 40)
      0

/-- Source `RiskScorer._get_age_multiplier`. -/
def get_age_multiplier (age : Option Int) : ℚ :=
  match age with
  | none => 1
  | some a =>
    match age_multipliers.find? (fun b => decide (b.1.1 ≤ a ∧ a < b.1.2)) with
    | some b => b.2
    | none => 1

/-- Source `RiskScorer._get_history_multiplier`: 1.0 + 0.1 per history entry whose
lowercase form contains a high-risk keyword (each entry counted once). -/
def get_history_multiplier (medical_history : Option (List String)) : ℚ :=
  match medical_history with
  | none => 1
  | some h =>
    if h.isEmpty then 1
    else
      let risk_count :=
        (h.filter (fun condition =>
          high_risk_history.any (fun k => strContains (pyLowerStr condition) k))).length
      1 + risk_count * (1/10)

/-- Source `RiskScorer._get_risk_level`. -/
def get_risk_level (score : Int) : String :=
  if score ≥ 80 then "critical"
  else if score ≥ 60 then "high"
  else if score ≥ 40 then "medium"
  else "low"

/-- Source `RiskScorer._get_urgency_level`. -/
def get_urgency_level (score : Int) (red_flags : List String) : String :=
  if red_flags ≠ [] ∨ score ≥ 85 then "emergency"
  else if score ≥ 70 then "urgent"
  else if score ≥ 50 then "semi_urgent"
  else "routine"

/-- Source `RiskScorer._get_risk_recommendations`. -/
def get_risk_recommendations (risk_level urgency : String) : List String :=
  (if urgency = "emergency" then
    ["Seek immediate emergency medical attention",
     "Call emergency services (911) if symptoms are severe",
     "Do not delay medical care"]
  else if urgency = "urgent" then
    ["Schedule urgent medical consultation within 24 hours",
     "Monitor symptoms closely",
     "Seek emergency care if symptoms worsen"]
  else if urgency = "semi_urgent" then
    ["Schedule medical consultation within 2-3 days",
     "Monitor symptoms and note any changes",
     "Contact healthcare provider if symptoms worsen"]
  else
    ["Schedule routine medical consultation",
     "Monitor symptoms over the next few days",
     "Maintain symptom diary"])
  ++
  (if risk_level = "high" ∨ risk_level = "critical" then
    ["Avoid strenuous activities", "Stay hydrated",
     "Have someone stay with you if possible"]
  else
    ["Get adequate rest", "Stay hydrated",
     "Follow up if symptoms persist or worsen"])

/-- Python's truncating `int()` on a rational. -/
def pyInt (q : ℚ) : Int := if 0 ≤ q then q.floor else -((-q).floor)

/-- The fields of `analysis_result` that `calculate_risk` reads
(`possible_conditions` and `red_flags`, both defaulting to `[]`). -/
structure AnalysisResult where
  possible_conditions : List String
  red_flags : List String
deriving Repr, DecidableEq

/-- The `risk_factors` sub-dictionary of a successful `calculate_risk`. -/
structure RiskFactors where
  symptom_risk : ℚ
  condition_risk : ℚ
  age_multiplier : ℚ
  history_multiplier : ℚ
  red_flag_bonus : Int
deriving Repr, DecidableEq

/-- The result dictionary of `RiskScorer.calculate_risk`.  On the fallback
path the source stores `{"error": str(e)}` in `risk_factors`; this is
modelled by `risk_factors = none` together with `error = some e`.  The
`calculated_at` timestamp is not modelled. -/
structure RiskAssessment where
  risk_score : Int
  risk_level : String
  urgency : String
  risk_factors : Option RiskFactors
  error : Option String
  recommendations : List String
deriving Repr, DecidableEq

/-- The `try`-branch of `RiskScorer.calculate_risk` (the branch taken when
no internal exception occurs; the translated body is total). -/
def calculate_risk (symptoms : List String) (analysis_result : AnalysisResult)
    (patient_age : Option Int) (medical_history : Option (List String)) :
    RiskAssessment :=
  let symptom_risk := calculate_symptom_risk symptoms
  let condition_risk := calculate_condition_risk analysis_result.possible_conditions
  let age_multiplier := get_age_multiplier patient_age
  let history_multiplier := get_history_multiplier medical_history
  let red_flag_bonus : Int := analysis_result.red_flags.length * 20
  let base_score := max symptom_risk condition_risk
  let adjusted_score := base_score * age_multiplier * history_multiplier + (red_flag_bonus : ℚ)
  let final_score := max 0 (min 100 (pyInt adjusted_score))
  let risk_level := get_risk_level final_score
  let urgency := get_urgency_level final_score analysis_result.red_flags
  { risk_score := final_score
    risk_level := risk_level
    urgency := urgency
    risk_factors := some
      { symptom_risk := symptom_risk
        condition_risk := condition_risk
        age_multiplier := age_multiplier
        history_multiplier := history_multiplier
        red_flag_bonus := red_flag_bonus }
    error := none
    recommendations := get_risk_recommendations risk_level urgency }

/-- The `except`-branch of `RiskScorer.calculate_risk` (the fixed fallback
assessment built from the caught exception's message). -/
def calculate_risk_fallback (e : String) : RiskAssessment :=
  { risk_score := 50
    risk_level := "medium"
    urgency := "routine"
    risk_factors := none
    error := some e
    recommendations := ["Consult healthcare provider for evaluation"] }

/-- The `try`/`except` wrapper of `calculate_risk`: the inner computation is
abstracted as an `Except` value (in the faithful translation it is total and
always `ok`; which raises can actually occur is a dynamic-typing question
outside the embedding), and any raised exception is converted to the fixed
fallback assessment. -/
def calculate_risk_wrapped (core : Except String RiskAssessment) : RiskAssessment :=
  match core with
  | .ok r => r
  | .error e => calculate_risk_fallback e

/- ============ DrugInteractionChecker (drug_interaction_checker.py) ============ -/

/-- One value of `interaction_database`. -/
structure InteractionEntry where
  major_interactions : List String
  moderate_interactions : List String
  effects : List (String × String)
deriving Repr, DecidableEq

/-- Source `DrugInteractionChecker._load_interaction_database`. -/
def interaction_database : List (String × InteractionEntry) :=
  [("warfarin",
    { major_interactions :=
        ["aspirin", "ibuprofen", "naproxen", "diclofenac",
         "amiodarone", "fluconazole", "metronidazole"]
      moderate_interactions := ["acetaminophen", "omeprazole", "simvastatin"]
      effects :=
        [("aspirin", "Increased bleeding risk"),
         ("ibuprofen", "Increased bleeding risk"),
         ("amiodarone", "Increased anticoagulation effect")] }),
   ("metformin",
    { major_interactions := ["contrast_dye", "alcohol"]
      moderate_interactions := ["furosemide", "nifedipine", "prednisone"]
      effects :=
        [("contrast_dye", "Risk of lactic acidosis"),
         ("alcohol", "Risk of lactic acidosis")] }),
   ("lisinopril",
    { major_interactions := ["potassium_supplements", "spironolactone", "amiloride"]
      moderate_interactions := ["ibuprofen", "naproxen", "lithium"]
      effects :=
        [("potassium_supplements", "Hyperkalemia risk"),
         ("ibuprofen", "Reduced antihypertensive effect")] }),
   ("simvastatin",
    { major_interactions := ["gemfibrozil", "cyclosporine", "danazol"]
      moderate_interactions := ["amlodipine", "diltiazem", "verapamil"]
      effects :=
        [("gemfibrozil", "Increased risk of myopathy"),
         ("cyclosporine", "Increased risk of rhabdomyolysis")] })]

/-- One value of `contraindication_database`. -/
structure ContraindicationEntry where
  absolute_contraindications : List String
  relative_contraindications : List String
deriving Repr, DecidableEq

/-- Source `DrugInteractionChecker._load_contraindication_database`. -/
def contraindication_database : List (String × ContraindicationEntry) :=
  [("warfarin",
    { absolute_contraindications :=
        ["active_bleeding", "severe_liver_disease", "pregnancy"]
      relative_contraindications :=
        ["recent_surgery", "peptic_ulcer", "hypertension_uncontrolled"] }),
   ("metformin",
    { absolute_contraindications :=
        ["kidney_disease_severe", "liver_disease", "heart_failure_severe"]
      relative_contraindications :=
        ["kidney_disease_moderate", "alcohol_abuse", "elderly_over_80"] }),
   ("ace_inhibitors",
    { absolute_contraindications :=
        ["pregnancy", "angioedema_history", "bilateral_renal_artery_stenosis"]
      relative_contraindications :=
        ["kidney_disease", "hyperkalemia", "hypotension"] })]

/-- Python dictionary key lookup (`db[k]` guarded by `k in db`). -/
def assocFind {α : Type} (m : List (String × α)) (k : String) : Option α :=
  match m.find? (fun p => p.1 == k) with
  | some p => some p.2
  | none => none

/-- Python `d.get(k, default)` on a string-to-string dictionary. -/
def assocGetD (m : List (String × String)) (k d : String) : String :=
  match m.find? (fun p => p.1 == k) with
  | some p => p.2
  | none => d

/-- One interaction dictionary as produced by `_check_pair_interaction`. -/
structure InteractionRecord where
  drug1 : String
  drug2 : String
  severity : String
  effect : String
  recommendation : String
deriving Repr, DecidableEq

/-- The second block of `_check_pair_interaction` (reverse probe: `drug2`'s
table entry, with the record's roles swapped as in the source). -/
def check_reverse (drug1 drug2 : String) : Option InteractionRecord :=
  match assocFind interaction_database drug2 with
  | some drug2_data =>
    if drug2_data.major_interactions.contains drug1 then
      some { drug1 := drug2, drug2 := drug1, severity := "major"
             effect := assocGetD drug2_data.effects drug1 "Significant interaction"
             recommendation := "Avoid combination or monitor closely" }
    else if drug2_data.moderate_interactions.contains drug1 then
      some { drug1 := drug2, drug2 := drug1, severity := "moderate"
             effect := assocGetD drug2_data.effects drug1 "Moderate interaction"
             recommendation := "Monitor for adverse effects" }
    else none
  | none => none

/-- Source `DrugInteractionChecker._check_pair_interaction`: the `drug1`-keyed
probe returns on a hit; otherwise control falls through to the reverse
probe (`check_reverse`). -/
def check_pair_interaction (drug1 drug2 : String) : Option InteractionRecord :=
  match assocFind interaction_database drug1 with
  | some drug1_data =>
    if drug1_data.major_interactions.contains drug2 then
      some { drug1 := drug1, drug2 := drug2, severity := "major"
             effect := assocGetD drug1_data.effects drug2 "Significant interaction"
             recommendation := "Avoid combination or monitor closely" }
    else if drug1_data.moderate_interactions.contains drug2 then
      some { drug1 := drug1, drug2 := drug2, severity := "moderate"
             effect := assocGetD drug1_data.effects drug2 "Moderate interaction"
             recommendation := "Monitor for adverse effects" }
    else check_reverse drug1 drug2
  | none => check_reverse drug1 drug2

/-- A single directed probe of the interaction table keyed by `a`, asking
whether `b` is listed as interacting with `a` (major first, then
moderate).  Used only to state the two-probe structure of
`check_pair_interaction`. -/
def check_direction (a b : String) : Option InteractionRecord :=
  match assocFind interaction_database a with
  | some data =>
    if data.major_interactions.contains b then
      some { drug1 := a, drug2 := b, severity := "major"
             effect := assocGetD data.effects b "Significant interaction"
             recommendation := "Avoid combination or monitor closely" }
    else if data.moderate_interactions.contains b then
      some { drug1 := a, drug2 := b, severity := "moderate"
             effect := assocGetD data.effects b "Moderate interaction"
             recommendation := "Monitor for adverse effects" }
    else none
  | none => none

/-- The `i < j` pair enumeration of `check_drug_interactions`'s nested
loops, in source order. -/
def allPairs : List String → List (String × String)
  | [] => []
  | x :: xs => xs.map (fun y => (x, y)) ++ allPairs xs

/-- Source `DrugInteractionChecker._calculate_interaction_risk_score`. -/
def calculate_interaction_risk_score (interactions : List InteractionRecord) : Int :=
  if interactions.isEmpty then 0
  else
    min
      (interactions.foldl
        (fun score i =>
          if i.severity == "major" then score + 30
          else if i.severity == "moderate" then score + 15
          else score + 5)
        0)
      100

/-- Source `DrugInteractionChecker._get_risk_level` (NOT the same thresholds as
`RiskScorer._get_risk_level`). -/
def drug_get_risk_level (score : Int) : String :=
  if score ≥ 70 then "critical"
  else if score ≥ 50 then "high"
  else if score ≥ 30 then "medium"
  else if score > 0 then "low"
  else "minimal"

/-- Source `DrugInteractionChecker._generate_interaction_recommendations`. -/
def generate_interaction_recommendations (interactions : List InteractionRecord) : List String :=
  (if !(interactions.filter (fun i => i.severity == "major")).isEmpty then
    ["Consult healthcare provider immediately about major drug interactions",
     "Consider alternative medications to avoid serious interactions"]
  else [])
  ++
  (if !(interactions.filter (fun i => i.severity == "moderate")).isEmpty then
    ["Monitor closely for adverse effects from moderate interactions",
     "Regular follow-up appointments recommended"]
  else [])
  ++
  (if interactions.isEmpty then ["No significant drug interactions detected"] else [])

/-- The result dictionary of the `try`-branch of
`check_drug_interactions` (`checked_at` not modelled). -/
structure DrugCheckResult where
  interactions : List InteractionRecord
  risk_score : Int
  risk_level : String
  recommendations : List String
  total_medications : Nat
deriving Repr, DecidableEq

/-- The `try`-branch of `DrugInteractionChecker.check_drug_interactions`
(the translated body is total). -/
def check_drug_interactions (medications : List String) : DrugCheckResult :=
  let normalized_meds := medications.map normalize_drug_name
  let interactions := (allPairs normalized_meds).filterMap
    (fun p => check_pair_interaction p.1 p.2)
  let risk_score := calculate_interaction_risk_score interactions
  { interactions := interactions
    risk_score := risk_score
    risk_level := drug_get_risk_level risk_score
    recommendations := generate_interaction_recommendations interactions
    total_medications := medications.length }

/-- The `except`-branch dictionary of `check_drug_interactions`, carrying
exactly the keys the source puts there. -/
structure DrugCheckErrorResult where
  error : String
  interactions : List InteractionRecord
  risk_score : Int
  risk_level : String
deriving Repr, DecidableEq

/-- The `except`-branch of `check_drug_interactions`. -/
def check_drug_interactions_on_error (e : String) : DrugCheckErrorResult :=
  { error := "Drug interaction check failed: " ++ e
    interactions := []
    risk_score := 0
    risk_level := "unknown" }

/-- One contraindication dictionary produced by
`_check_condition_contraindications`. -/
structure ContraindicationRecord where
  condition : String
  severity : String
  recommendation : String
  risk_description : String
deriving Repr, DecidableEq

/-- Source `DrugInteractionChecker._check_condition_contraindications`: the
absolute loop over conditions, then the relative loop. -/
def check_condition_contraindications (drug_data : ContraindicationEntry)
    (conditions : List String) : List ContraindicationRecord :=
  ((conditions.filter (fun c => drug_data.absolute_contraindications.contains c)).map
    (fun c =>
      { condition := c, severity := "absolute"
        recommendation := "Do not use this medication"
        risk_description := "High risk of serious adverse effects" }))
  ++
  ((conditions.filter (fun c => drug_data.relative_contraindications.contains c)).map
    (fun c =>
      { condition := c, severity := "relative"
        recommendation := "Use with caution and close monitoring"
        risk_description := "Increased risk of adverse effects" }))

/-- Source `DrugInteractionChecker._get_drug_class`. -/
def get_drug_class (drug_name : String) : Option String :=
  assocFind
    [("lisinopril", "ace_inhibitors"), ("enalapril", "ace_inhibitors"),
     ("captopril", "ace_inhibitors"), ("ramipril", "ace_inhibitors")]
    drug_name

/-- Source `DrugInteractionChecker._calculate_contraindication_risk_score`. -/
def calculate_contraindication_risk_score
    (contraindications : List ContraindicationRecord) : Int :=
  if contraindications.isEmpty then 0
  else
    min
      (contraindications.foldl
        (fun score c =>
          if c.severity == "absolute" then score + 50
          else if c.severity == "relative" then score + 25
          else score)
        0)
      100

/-- Source `DrugInteractionChecker._generate_contraindication_recommendations`. -/
def generate_contraindication_recommendations
    (contraindications : List ContraindicationRecord) : List String :=
  (if !(contraindications.filter (fun c => c.severity == "absolute")).isEmpty then
    ["This medication is contraindicated - do not use",
     "Consult healthcare provider for alternative treatments"]
  else [])
  ++
  (if !(contraindications.filter (fun c => c.severity == "relative")).isEmpty then
    ["Use with extreme caution and close monitoring",
     "Benefits must outweigh risks",
     "Consider dose adjustment or alternative therapy"]
  else [])
  ++
  (if contraindications.isEmpty then
    ["No contraindications detected for current conditions"]
  else [])

/-- The result dictionary of the `try`-branch of `check_contraindications`
(`checked_at` not modelled). -/
structure ContraCheckResult where
  medication : String
  contraindications : List ContraindicationRecord
  risk_score : Int
  risk_level : String
  recommendations : List String
  is_safe : Bool
deriving Repr, DecidableEq

/-- The `try`-branch of `DrugInteractionChecker.check_contraindications`
(the translated body is total). -/
def check_contraindications (medication : String) (patient_conditions : List String) :
    ContraCheckResult :=
  let normalized_med := normalize_drug_name medication
  let normalized_conditions := patient_conditions.map normalize_condition
  let direct :=
    match assocFind contraindication_database normalized_med with
    | some drug_data => check_condition_contraindications drug_data normalized_conditions
    | none => []
  let from_class :=
    match get_drug_class normalized_med with
    | some drug_class =>
      match assocFind contraindication_database drug_class with
      | some class_data => check_condition_contraindications class_data normalized_conditions
      | none => []
    | none => []
  let contraindications := direct ++ from_class
  let risk_score := calculate_contraindication_risk_score contraindications
  { medication := medication
    contraindications := contraindications
    risk_score := risk_score
    risk_level := drug_get_risk_level risk_score
    recommendations := generate_contraindication_recommendations contraindications
    is_safe := (contraindications.filter (fun c => c.severity == "absolute")).length == 0 }

/-- The `except`-branch dictionary of `check_contraindications`, carrying
exactly the keys the source puts there. -/
structure ContraCheckErrorResult where
  error : String
  contraindications : List ContraindicationRecord
  risk_score : Int
  is_safe : Bool
deriving Repr, DecidableEq

/-- The `except`-branch of `check_contraindications`. -/
def check_contraindications_on_error (e : String) : ContraCheckErrorResult :=
  { error := "Contraindication check failed: " ++ e
    contraindications := []
    risk_score := 0
    is_safe := false }

/- ============ SymptomAnalyzer.analyze fallback (symptom_analyzer.py) ============ -/

/-- The result dictionary of `SymptomAnalyzer.analyze`
(`analysis_timestamp` not modelled). -/
structure AnalyzeResult where
  possible_conditions : List String
  recommended_specialization : List String
  recommended_actions : List String
  red_flags : List String
  confidence : ℚ
  explanation : String
  analyzed_symptoms : List String
deriving Repr, DecidableEq

/-- The `except`-branch of `SymptomAnalyzer.analyze`: the fixed degraded
result built from the raw symptom list and the caught exception's
message. -/
def analyze_fallback (symptoms : List String) (e : String) : AnalyzeResult :=
  { possible_conditions := ["Unable to analyze - please consult healthcare provider"]
    recommended_specialization := ["general_medicine"]
    recommended_actions := ["Schedule consultation with healthcare provider"]
    red_flags := []
    confidence := 1/10
    explanation := "Analysis error: " ++ e ++ ". Please consult with a healthcare professional."
    analyzed_symptoms := symptoms }

/-- The `try`/`except` wrapper of `SymptomAnalyzer.analyze`: the inner
computation is abstracted as an `Except` value, and any raised exception
is converted to the fixed degraded result. -/
def analyze_wrapped (symptoms : List String) (core : Except String AnalyzeResult) :
    AnalyzeResult :=
  match core with
  | .ok r => r
  | .error e => analyze_fallback symptoms e


/- ===================== Claim theorems ===================== -/

/-- Claim C1 (code evaluated at the failing input): in
`_calculate_symptom_risk` the conditional chain tests `symptom_count > 3`
before `symptom_count > 5`, so six default-weight (25) symptoms take the
1.2 branch and yield symptom risk 30 — not the 25 × 1.4 = 35 the spec's
single-conditional-chain reading (1.4 for count > 5) requires. -/
theorem calculate_symptom_risk_six_default_eq_30 :
    calculate_symptom_risk ["sym a", "sym b", "sym c", "sym d", "sym e", "sym f"] = 30 := by
  have h : List.map symptom_term_weight ["sym a", "sym b", "sym c", "sym d", "sym e", "sym f"]
      = [25, 25, 25, 25, 25, 25] := by decide
  simp only [calculate_symptom_risk, h]
  norm_num

/-- Claim C2 (counterexample): at score 70 the Drug Interaction Matrix's
`_get_risk_level` answers "critical" while the Risk Scorer's §4.4 mapping
answers "high", refuting the claim that the two mappings are equal with
thresholds 80/60/40. -/
theorem drug_risk_level_70_differs :
    drug_get_risk_level 70 = "critical" ∧ get_risk_level 70 = "high" ∧
    (drug_get_risk_level 70 == get_risk_level 70) = false := by
  refine ⟨rfl, rfl, rfl⟩

/-- Claim C2 (amended): the drug checker's score-to-risk-level mapping uses
its own thresholds — critical iff score ≥ 70, high iff 70 > score ≥ 50,
medium iff 50 > score ≥ 30, low iff 30 > score > 0, and minimal iff
score ≤ 0 — which is not the Risk Scorer's §4.4 mapping. -/
theorem drug_get_risk_level_thresholds (score : Int) :
    (drug_get_risk_level score = "critical" ↔ 70 ≤ score) ∧
    (drug_get_risk_level score = "high" ↔ 50 ≤ score ∧ score < 70) ∧
    (drug_get_risk_level score = "medium" ↔ 30 ≤ score ∧ score < 50) ∧
    (drug_get_risk_level score = "low" ↔ 0 < score ∧ score < 30) ∧
    (drug_get_risk_level score = "minimal" ↔ score ≤ 0) := by
  unfold drug_get_risk_level
  split_ifs with h1 h2 h3 h4 <;>
    refine ⟨?_, ?_, ?_, ?_, ?_⟩ <;> simp <;> omega

/-- Claim C8: the engine's public operations are total and never propagate
an exception.  The `try`/`except` wrappers of `RiskScorer.calculate_risk`
and `SymptomAnalyzer.analyze` map every outcome of the inner computation
to a structurally valid result: a normal result is passed through, and a
raised exception becomes the fixed fallback assessment (score 50, level
"medium", urgency "routine") resp. the degraded analysis (confidence 0.1,
echoing the raw symptoms). -/
theorem engine_never_propagates_exceptions
    (coreR : Except String RiskAssessment)
    (coreA : Except String AnalyzeResult) (symptoms : List String) :
    (∀ r, coreR = .ok r → calculate_risk_wrapped coreR = r) ∧
    (∀ e, coreR = .error e →
      (calculate_risk_wrapped coreR).risk_score = 50 ∧
      (calculate_risk_wrapped coreR).risk_level = "medium" ∧
      (calculate_risk_wrapped coreR).urgency = "routine" ∧
      calculate_risk_wrapped coreR = calculate_risk_fallback e) ∧
    (∀ r, coreA = .ok r → analyze_wrapped symptoms coreA = r) ∧
    (∀ e, coreA = .error e →
      (analyze_wrapped symptoms coreA).confidence = 1/10 ∧
      (analyze_wrapped symptoms coreA).analyzed_symptoms = symptoms ∧
      analyze_wrapped symptoms coreA = analyze_fallback symptoms e) := by
  refine ⟨?_, ?_, ?_, ?_⟩
  · rintro r rfl; rfl
  · rintro e rfl; exact ⟨rfl, rfl, rfl, rfl⟩
  · rintro r rfl; rfl
  · rintro e rfl; exact ⟨rfl, rfl, rfl⟩

/-- Claim C8 witness: the wrappers evaluated on concrete raised
exceptions. -/
theorem engine_never_propagates_exceptions_witness :
    (calculate_risk_wrapped (.error "division by zero")).risk_score = 50 ∧
    (analyze_wrapped ["dizzy"] (.error "division by zero")).confidence = 1/10 :=
  ⟨((engine_never_propagates_exceptions (.error "division by zero")
      (.error "division by zero") ["dizzy"]).2.1 "division by zero" rfl).1,
   ((engine_never_propagates_exceptions (.error "division by zero")
      (.error "division by zero") ["dizzy"]).2.2.2 "division by zero" rfl).1⟩

/-- Claim C10: on an internal exception `check_drug_interactions` returns a
dictionary with an error message, an empty interaction list, risk score 0
and risk level "unknown" — a value outside the five-tier
minimal/low/medium/high/critical vocabulary — and `check_contraindications`
on exception returns `is_safe = false` with an empty contraindication list
(and risk score 0), biasing the error path toward "unsafe" although zero
absolute contraindications were found. -/
theorem drug_checker_error_paths (e : String) :
    check_drug_interactions_on_error e =
      { error := "Drug interaction check failed: " ++ e
        interactions := []
        risk_score := 0
        risk_level := "unknown" } ∧
    (["minimal", "low", "medium", "high", "critical"].contains
      (check_drug_interactions_on_error e).risk_level) = false ∧
    check_contraindications_on_error e =
      { error := "Contraindication check failed: " ++ e
        contraindications := []
        risk_score := 0
        is_safe := false } ∧
    (check_contraindications_on_error e).is_safe = false ∧
    (check_contraindications_on_error e).contraindications = [] := by
  exact ⟨rfl, rfl, rfl, rfl, rfl⟩

/-- Claim C3: `_get_urgency_level` answers "emergency" iff the red-flag
list is non-empty or the score is ≥ 85; below that, "urgent" iff
score ≥ 70, "semi_urgent" iff score ≥ 50, and "routine" iff score < 50.
In particular a non-empty red-flag list forces "emergency" at any score. -/
theorem get_urgency_level_tiers (score : Int) (red_flags : List String) :
    (get_urgency_level score red_flags = "emergency" ↔
      (red_flags ≠ [] ∨ 85 ≤ score)) ∧
    (get_urgency_level score red_flags = "urgent" ↔
      (red_flags = [] ∧ score < 85 ∧ 70 ≤ score)) ∧
    (get_urgency_level score red_flags = "semi_urgent" ↔
      (red_flags = [] ∧ score < 70 ∧ 50 ≤ score)) ∧
    (get_urgency_level score red_flags = "routine" ↔
      (red_flags = [] ∧ score < 50)) := by
  unfold get_urgency_level
  split_ifs with h1 h2 h3
  · refine ⟨by simp [h1], ?_, ?_, ?_⟩ <;>
      · simp only [String.reduceEq, false_iff]
        rintro ⟨rfl, h⟩
        rcases h1 with hne | hge
        · exact hne rfl
        · omega
  · rw [not_or, not_ne_iff] at h1
    obtain ⟨rfl, h85⟩ := h1
    refine ⟨by simp [h85], by simp; omega, by simp; omega, by simp; omega⟩
  · rw [not_or, not_ne_iff] at h1
    obtain ⟨rfl, h85⟩ := h1
    refine ⟨by simp [h85], by simp; omega, by simp; omega, by simp; omega⟩
  · rw [not_or, not_ne_iff] at h1
    obtain ⟨rfl, h85⟩ := h1
    refine ⟨by simp [h85], by simp; omega, by simp; omega, by simp; omega⟩

/-- Claim C3 witness: a non-empty red-flag list forces "emergency" at
score 0. -/
theorem get_urgency_level_tiers_witness :
    get_urgency_level 0 ["Critical symptom: severe chest pain"] = "emergency" :=
  ((get_urgency_level_tiers 0 ["Critical symptom: severe chest pain"]).1).mpr
    (Or.inl (by simp))

/-- Claim C4: on the exception-free path, `calculate_risk`'s final score is
the integer clamp to [0,100] of
(max(symptomRisk, conditionRisk) × ageMultiplier × historyMultiplier)
+ 20 × (number of red flags), and the risk level derived from it is
critical at score ≥ 80, high at ≥ 60, medium at ≥ 40, else low. -/
theorem calculate_risk_composite (symptoms : List String) (analysis : AnalysisResult)
    (patient_age : Option Int) (medical_history : Option (List String)) :
    (calculate_risk symptoms analysis patient_age medical_history).risk_score =
      max 0 (min 100 (pyInt
        (max (calculate_symptom_risk symptoms)
             (calculate_condition_risk analysis.possible_conditions)
          * get_age_multiplier patient_age * get_history_multiplier medical_history
          + 20 * (analysis.red_flags.length : ℚ)))) ∧
    (calculate_risk symptoms analysis patient_age medical_history).risk_level =
      (if (calculate_risk symptoms analysis patient_age medical_history).risk_score ≥ 80
          then "critical"
       else if (calculate_risk symptoms analysis patient_age medical_history).risk_score ≥ 60
          then "high"
       else if (calculate_risk symptoms analysis patient_age medical_history).risk_score ≥ 40
          then "medium"
       else "low") := by
  constructor
  · have hcast : (((analysis.red_flags.length : Int) * 20 : Int) : ℚ)
        = 20 * (analysis.red_flags.length : ℚ) := by push_cast; ring
    simp only [calculate_risk]
    rw [hcast]
  · rfl

/-- Claim C6: `_check_pair_interaction` probes the `drug1`-keyed direction
of the interaction table before the `drug2`-keyed reverse and returns on
the first match, so a pair yields at most one record with one severity;
concretely, `check_drug_interactions(["warfarin", "aspirin"])` finds exactly
one interaction, severity "major", effect "Increased bleeding risk". -/
theorem check_pair_interaction_probe_order :
    (∀ drug1 drug2 : String,
      check_pair_interaction drug1 drug2 =
        (check_direction drug1 drug2).orElse (fun _ => check_direction drug2 drug1)) ∧
    (check_drug_interactions ["warfarin", "aspirin"]).interactions =
      [{ drug1 := "warfarin", drug2 := "aspirin", severity := "major"
         effect := "Increased bleeding risk"
         recommendation := "Avoid combination or monitor closely" }] := by
  constructor
  · intro drug1 drug2
    unfold check_pair_interaction check_direction check_reverse Option.orElse
    cases assocFind interaction_database drug1 <;>
      cases assocFind interaction_database drug2 <;>
      simp <;> split_ifs <;> rfl
  · decide

/-- Helper: the severity-scoring left fold of
`_calculate_interaction_risk_score` is the sum of per-record scores. -/
theorem interaction_severity_foldl_eq_sum (l : List InteractionRecord) (a : Int) :
    l.foldl
      (fun score i =>
        if i.severity == "major" then score + 30
        else if i.severity == "moderate" then score + 15
        else score + 5) a
      = a + (l.map (fun i =>
          if i.severity = "major" then (30 : Int)
          else if i.severity = "moderate" then 15 else 5)).sum := by
  induction l generalizing a with
  | nil => simp
  | cons x t ih =>
    rw [List.foldl_cons, ih, List.map_cons, List.sum_cons]
    simp only [beq_iff_eq]
    split_ifs <;> ring

/-- Claim C7: the interaction risk score is the clamped-to-100 sum of 30
per major, 15 per moderate and 5 per other registered severity; with no
interaction the score is 0, and
`check_drug_interactions(["acetaminophen", "ibuprofen"])` returns an empty
interaction list, risk score 0 and risk level "minimal". -/
theorem interaction_risk_score_spec :
    (∀ interactions : List InteractionRecord,
      calculate_interaction_risk_score interactions =
        min ((interactions.map (fun i =>
            if i.severity = "major" then (30 : Int)
            else if i.severity = "moderate" then 15 else 5)).sum) 100) ∧
    calculate_interaction_risk_score [] = 0 ∧
    check_drug_interactions ["acetaminophen", "ibuprofen"] =
      { interactions := []
        risk_score := 0
        risk_level := "minimal"
        recommendations := ["No significant drug interactions detected"]
        total_medications := 2 } := by
  refine ⟨?_, rfl, by decide⟩
  intro l
  rcases l with _ | ⟨x, t⟩
  · simp [calculate_interaction_risk_score]
  · simp only [calculate_interaction_risk_score, List.isEmpty_cons, if_neg]
    rw [interaction_severity_foldl_eq_sum]
    simp

/-- Helper: every record emitted by `_check_condition_contraindications`
has severity "absolute" or "relative". -/
theorem check_condition_contraindications_severity
    (drug_data : ContraindicationEntry) (conditions : List String)
    (c : ContraindicationRecord)
    (hc : c ∈ check_condition_contraindications drug_data conditions) :
    c.severity = "absolute" ∨ c.severity = "relative" := by
  unfold check_condition_contraindications at hc
  rcases List.mem_append.mp hc with h | h <;>
    · obtain ⟨x, hx, rfl⟩ := List.mem_map.mp h
      simp

/-- Helper: every record in a `check_contraindications` result has severity
"absolute" or "relative". -/
theorem check_contraindications_mem_severity (medication : String)
    (patient_conditions : List String) (c : ContraindicationRecord)
    (hc : c ∈ (check_contraindications medication patient_conditions).contraindications) :
    c.severity = "absolute" ∨ c.severity = "relative" := by
  simp only [check_contraindications] at hc
  rcases List.mem_append.mp hc with h | h
  · rcases hd : assocFind contraindication_database (normalize_drug_name medication) with _ | d
    · simp [hd] at h
    · simp only [hd] at h
      exact check_condition_contraindications_severity d _ c h
  · rcases hg : get_drug_class (normalize_drug_name medication) with _ | cls
    · simp [hg] at h
    · simp only [hg] at h
      rcases hd : assocFind contraindication_database cls with _ | d
      · simp [hd] at h
      · simp only [hd] at h
        exact check_condition_contraindications_severity d _ c h

/-- Helper: the severity-scoring left fold of
`_calculate_contraindication_risk_score` counts 50 per absolute and 25 per
relative record. -/
theorem contra_severity_foldl_eq (l : List ContraindicationRecord) (a : Int)
    (hl : ∀ c ∈ l, c.severity = "absolute" ∨ c.severity = "relative") :
    l.foldl
      (fun score c =>
        if c.severity == "absolute" then score + 50
        else if c.severity == "relative" then score + 25
        else score) a
      = a + 50 * ((l.filter (fun c => c.severity == "absolute")).length : Int)
          + 25 * ((l.filter (fun c => c.severity == "relative")).length : Int) := by
  induction l generalizing a with
  | nil => simp
  | cons x t ih =>
    have hx := hl x (List.mem_cons_self _ _)
    rw [List.foldl_cons, ih _ (fun c hc => hl c (List.mem_cons_of_mem x hc))]
    rcases hx with h | h <;>
      · simp only [h, List.filter_cons, beq_iff_eq, String.reduceEq, beq_self_eq_true,
          if_true, if_false, ite_true, ite_false, List.length_cons]
        push_cast
        ring

/-- Helper: `_calculate_contraindication_risk_score` equals the clamped
50-per-absolute + 25-per-relative sum on lists whose severities are all
"absolute" or "relative". -/
theorem contra_risk_score_formula (l : List ContraindicationRecord)
    (hl : ∀ c ∈ l, c.severity = "absolute" ∨ c.severity = "relative") :
    calculate_contraindication_risk_score l =
      min (50 * ((l.filter (fun c => c.severity == "absolute")).length : Int)
         + 25 * ((l.filter (fun c => c.severity == "relative")).length : Int)) 100 := by
  rcases l with _ | ⟨x, t⟩
  · simp [calculate_contraindication_risk_score]
  · simp only [calculate_contraindication_risk_score, List.isEmpty_cons, if_neg]
    rw [contra_severity_foldl_eq _ _ hl]
    simp

/-- Claim C5: on the exception-free path, `check_contraindications` is safe
iff zero absolute-severity contraindications were found (independent of
the relative count), its risk score is the sum of 50 per absolute and 25
per relative contraindication clamped to 100, and any patient condition
whose normalization lies in the absolute list of the (normalized) drug's
contraindication entry forces `is_safe = false`. -/
theorem check_contraindications_spec (medication : String) (patient_conditions : List String) :
    ((check_contraindications medication patient_conditions).is_safe = true ↔
      (((check_contraindications medication patient_conditions).contraindications.filter
          (fun c => c.severity == "absolute")).length = 0)) ∧
    ((check_contraindications medication patient_conditions).risk_score =
      min (50 * ((((check_contraindications medication patient_conditions).contraindications.filter
              (fun c => c.severity == "absolute")).length : Int))
         + 25 * ((((check_contraindications medication patient_conditions).contraindications.filter
              (fun c => c.severity == "relative")).length : Int))) 100) ∧
    (∀ entry, assocFind contraindication_database (normalize_drug_name medication) = some entry →
      ∀ cond, cond ∈ patient_conditions →
        entry.absolute_contraindications.contains (normalize_condition cond) = true →
        (check_contraindications medication patient_conditions).is_safe = false) := by
  refine ⟨?_, ?_, ?_⟩
  · simp [check_contraindications]
  · have hl : ∀ c ∈ (check_contraindications medication patient_conditions).contraindications,
        c.severity = "absolute" ∨ c.severity = "relative" :=
      fun c hc => check_contraindications_mem_severity medication patient_conditions c hc
    simp only [check_contraindications] at hl ⊢
    exact contra_risk_score_formula _ hl
  · intro entry hentry cond hcond hcontains
    have hmem : ({ condition := normalize_condition cond,
                   severity := "absolute",
                   recommendation := "Do not use this medication",
                   risk_description := "High risk of serious adverse effects" } :
                  ContraindicationRecord)
        ∈ (check_contraindications medication patient_conditions).contraindications := by
      simp only [check_contraindications, hentry]
      apply List.mem_append_left
      unfold check_condition_contraindications
      apply List.mem_append_left
      apply List.mem_map_of_mem
      rw [List.mem_filter]
      exact ⟨List.mem_map_of_mem normalize_condition hcond, hcontains⟩
    have hfil : ({ condition := normalize_condition cond,
                   severity := "absolute",
                   recommendation := "Do not use this medication",
                   risk_description := "High risk of serious adverse effects" } :
                  ContraindicationRecord)
        ∈ (check_contraindications medication patient_conditions).contraindications.filter
            (fun c => c.severity == "absolute") :=
      List.mem_filter.mpr ⟨hmem, rfl⟩
    have hlen := List.length_pos.mpr (List.ne_nil_of_mem hfil)
    simp only [check_contraindications] at hlen ⊢
    simp only [beq_eq_false_iff_ne]
    omega

/-- Claim C5 witness: warfarin with the condition "pregnancy" (which is in
warfarin's absolute list) is reported unsafe. -/
theorem check_contraindications_spec_witness :
    (check_contraindications "warfarin" ["pregnancy"]).is_safe = false :=
  (check_contraindications_spec "warfarin" ["pregnancy"]).2.2
    { absolute_contraindications := ["active_bleeding", "severe_liver_disease", "pregnancy"]
      relative_contraindications := ["recent_surgery", "peptic_ulcer", "hypertension_uncontrolled"] }
    (by decide) "pregnancy" (by decide) (by decide)

/-- Helper: ASCII `Char.toLower` is idempotent. -/
theorem toLower_toLower (c : Char) : c.toLower.toLower = c.toLower := by
  simp only [Char.toLower]
  split_ifs with h1 h2
  · exfalso
    have hv : (c.toNat + 32).isValidChar := Or.inl (by omega)
    have ht : (Char.ofNat (c.toNat + 32)).toNat = c.toNat + 32 := by
      unfold Char.ofNat
      rw [dif_pos hv]
      rfl
    omega
  · rfl
  · rfl

/-- Helper: characters surviving `pyStrip` come from the input. -/
theorem mem_pyStrip {cs : List Char} {c : Char} (h : c ∈ pyStrip cs) : c ∈ cs := by
  unfold pyStrip at h
  have h1 := List.dropWhile_subset isPySpace (List.mem_reverse.mp h)
  exact List.dropWhile_subset isPySpace (List.mem_reverse.mp h1)

/-- Helper: the residue a dose-suffix match leaves is `[]` or a final
newline. -/
theorem doseResidue_some {rest res : List Char} (h : doseResidue rest = some res) :
    res = [] ∨ res = ['\n'] := by
  unfold doseResidue at h
  split at h
  · split at h
    · right; exact (Option.some.inj h).symm
    · left; exact (Option.some.inj h).symm
  · cases h

/-- Helper: characters surviving `stripDoseSuffix` come from the input or
are a surviving final newline. -/
theorem mem_stripDoseSuffix {cs : List Char} {c : Char} (h : c ∈ stripDoseSuffix cs) :
    c ∈ cs ∨ c = '\n' := by
  induction cs with
  | nil => simp [stripDoseSuffix] at h
  | cons x t ih =>
    unfold stripDoseSuffix at h
    by_cases hx : isPySpace x
    · rw [if_pos hx] at h
      rcases hres : doseResidue (t.dropWhile isPySpace) with _ | residue
      · simp only [hres] at h
        rcases List.mem_cons.mp h with rfl | h'
        · exact Or.inl (List.mem_cons_self _ _)
        · rcases ih h' with h2 | h2
          · exact Or.inl (List.mem_cons_of_mem x h2)
          · exact Or.inr h2
      · simp only [hres] at h
        rcases doseResidue_some hres with rfl | rfl
        · exact absurd h (List.not_mem_nil c)
        · rcases List.mem_cons.mp h with rfl | h'
          · exact Or.inr rfl
          · exact absurd h' (List.not_mem_nil c)
    · rw [if_neg hx] at h
      rcases List.mem_cons.mp h with rfl | h'
      · exact Or.inl (List.mem_cons_self _ _)
      · rcases ih h' with h2 | h2
        · exact Or.inl (List.mem_cons_of_mem x h2)
        · exact Or.inr h2

/-- Helper: every character of `collapseAux` output is a non-whitespace
input character or the underscore. -/
theorem collapseAux_chars {b : Bool} {cs : List Char} {c : Char}
    (h : c ∈ collapseAux b cs) :
    (c ∈ cs ∧ isPySpace c = false) ∨ c = '_' := by
  induction cs generalizing b with
  | nil => simp [collapseAux] at h
  | cons x t ih =>
    unfold collapseAux at h
    by_cases hx : isPySpace x
    · rw [if_pos hx] at h
      have hsub : c ∈ collapseAux true t → (c ∈ x :: t ∧ isPySpace c = false) ∨ c = '_' := by
        intro h'
        rcases ih h' with ⟨hm, hn⟩ | h2
        · exact Or.inl ⟨List.mem_cons_of_mem x hm, hn⟩
        · exact Or.inr h2
      cases b with
      | true => exact hsub (by simpa using h)
      | false =>
        rcases List.mem_cons.mp (by simpa using h) with rfl | h'
        · exact Or.inr rfl
        · exact hsub h'
    · rw [if_neg hx] at h
      rcases List.mem_cons.mp h with rfl | h'
      · exact Or.inl ⟨List.mem_cons_self _ _, by simpa using hx⟩
      · rcases ih h' with ⟨hm, hn⟩ | h2
        · exact Or.inl ⟨List.mem_cons_of_mem x hm, hn⟩
        · exact Or.inr h2

/-- Helper: `dropWhile` is the identity on lists with no matching
character. -/
theorem dropWhile_eq_self_of_none {p : Char → Bool} {cs : List Char}
    (h : ∀ c ∈ cs, p c = false) : cs.dropWhile p = cs := by
  cases cs with
  | nil => rfl
  | cons x t =>
    rw [List.dropWhile_cons, if_neg]
    simp [h x (List.mem_cons_self _ _)]

/-- Helper: `pyStrip` is the identity on whitespace-free lists. -/
theorem pyStrip_eq_self {cs : List Char} (h : ∀ c ∈ cs, isPySpace c = false) :
    pyStrip cs = cs := by
  unfold pyStrip
  rw [dropWhile_eq_self_of_none h,
    dropWhile_eq_self_of_none (fun c hc => h c (List.mem_reverse.mp hc)),
    List.reverse_reverse]

/-- Helper: `stripDoseSuffix` is the identity on whitespace-free lists. -/
theorem stripDoseSuffix_eq_self {cs : List Char} (h : ∀ c ∈ cs, isPySpace c = false) :
    stripDoseSuffix cs = cs := by
  induction cs with
  | nil => rfl
  | cons x t ih =>
    unfold stripDoseSuffix
    rw [if_neg (by simp [h x (List.mem_cons_self _ _)]),
      ih (fun c hc => h c (List.mem_cons_of_mem x hc))]

/-- Helper: `collapseSpaces` is the identity on whitespace-free lists. -/
theorem collapseSpaces_eq_self {cs : List Char} (h : ∀ c ∈ cs, isPySpace c = false) :
    collapseSpaces cs = cs := by
  unfold collapseSpaces
  suffices hgen : ∀ b, collapseAux b cs = cs from hgen false
  induction cs with
  | nil => intro b; rfl
  | cons x t ih =>
    intro b
    unfold collapseAux
    rw [if_neg (by simp [h x (List.mem_cons_self _ _)]),
      ih (fun c hc => h c (List.mem_cons_of_mem x hc)) false]

/-- Helper: `pyLower` is the identity on already-lowercase lists. -/
theorem pyLower_eq_self {cs : List Char} (h : ∀ c ∈ cs, c.toLower = c) :
    pyLower cs = cs := by
  induction cs with
  | nil => rfl
  | cons x t ih =>
    unfold pyLower
    rw [List.map_cons, h x (List.mem_cons_self _ _)]
    exact congrArg (x :: ·) (ih (fun c hc => h c (List.mem_cons_of_mem x hc)))

/-- Helper: on a whitespace-free, already-lowercase string the whole
normalization pipeline of `_normalize_drug_name` reduces to the alias
table lookup. -/
theorem normalize_drug_name_of_normal {l : List Char}
    (h1 : ∀ c ∈ l, isPySpace c = false) (h2 : ∀ c ∈ l, c.toLower = c) :
    normalize_drug_name (String.mk l) = aliasApply drug_mappings (String.mk l) := by
  show aliasApply drug_mappings
      (String.mk (collapseSpaces (stripDoseSuffix (pyStrip (pyLower l))))) =
    aliasApply drug_mappings (String.mk l)
  rw [pyLower_eq_self h2, pyStrip_eq_self h1, stripDoseSuffix_eq_self h1,
    collapseSpaces_eq_self h1]

/-- Helper: every value of the drug alias table is a fixed point of
`_normalize_drug_name`. -/
theorem drug_mappings_values_fixed : ∀ p ∈ drug_mappings, normalize_drug_name p.2 = p.2 := by
  intro p hp
  fin_cases hp <;> decide

/-- Claim C9 (amended): drug-name normalization is idempotent on every
input string.  (Symptom normalization is not; see the counterexample.) -/
theorem normalize_drug_name_idem (s : String) :
    normalize_drug_name (normalize_drug_name s) = normalize_drug_name s := by
  have key : ∀ l : List Char, (∀ c ∈ l, isPySpace c = false) → (∀ c ∈ l, c.toLower = c) →
      normalize_drug_name (aliasApply drug_mappings (String.mk l))
        = aliasApply drug_mappings (String.mk l) := by
    intro l h1 h2
    unfold aliasApply
    rcases hf : drug_mappings.find? (fun p => p.1 == String.mk l) with _ | p
    · simp only [hf]
      rw [normalize_drug_name_of_normal h1 h2]
      simp only [aliasApply, hf]
    · simp only [hf]
      exact drug_mappings_values_fixed p (List.mem_of_find?_eq_some hf)
  set l := collapseSpaces (stripDoseSuffix (pyStrip (pyLower s.data))) with hldef
  have h1 : ∀ c ∈ l, isPySpace c = false := by
    intro c hc
    rcases collapseAux_chars hc with ⟨_, hns⟩ | rfl
    · exact hns
    · rfl
  have h2 : ∀ c ∈ l, c.toLower = c := by
    intro c hc
    rcases collapseAux_chars hc with ⟨hmem, _⟩ | rfl
    · rcases mem_stripDoseSuffix hmem with hm2 | rfl
      · obtain ⟨a, _, rfl⟩ := List.mem_map.mp (mem_pyStrip hm2)
        exact toLower_toLower a
      · rfl
    · rfl
  show normalize_drug_name (aliasApply drug_mappings (String.mk l))
      = aliasApply drug_mappings (String.mk l)
  exact key l h1 h2

/-- Claim C9 (counterexample): `_normalize_symptom` strips only one
leading-filler layer per call, so it is not idempotent: one application
maps "severe severe headache" to "severe headache", a second application
maps that to "headache". -/
theorem normalize_symptom_not_idempotent :
    normalize_symptom (normalize_symptom "severe severe headache") ≠
      normalize_symptom "severe severe headache" := by decide


/- ===================== Concrete sanity checks ===================== -/

example : calculate_symptom_risk ["s1", "s2", "s3", "s4", "s5", "s6"] = 30 := by
  have h : List.map symptom_term_weight ["s1", "s2", "s3", "s4", "s5", "s6"]
      = [25, 25, 25, 25, 25, 25] := by decide
  simp only [calculate_symptom_risk, h]
  norm_num
example : calculate_symptom_risk ["headache"] = 35 := by
  have h : List.map symptom_term_weight ["headache"] = [35] := by decide
  simp only [calculate_symptom_risk, h]
  norm_num
example : get_age_multiplier (some 70) = 12/10 := by
  norm_num [get_age_multiplier, age_multipliers, List.find?]
example : get_age_multiplier (some 150) = 1 := by
  norm_num [get_age_multiplier, age_multipliers, List.find?]

example : normalize_drug_name "Coumadin" = "warfarin" := by decide
example :
    (check_drug_interactions ["warfarin", "aspirin"]).interactions =
      [{ drug1 := "warfarin", drug2 := "aspirin", severity := "major"
         effect := "Increased bleeding risk"
         recommendation := "Avoid combination or monitor closely" }] := by decide
example : (check_drug_interactions ["acetaminophen", "ibuprofen"]).interactions = [] := by decide
example : (check_drug_interactions ["acetaminophen", "ibuprofen"]).risk_score = 0 := by decide
example : (check_drug_interactions ["acetaminophen", "ibuprofen"]).risk_level = "minimal" := by decide
example : (check_contraindications "warfarin" ["pregnancy"]).is_safe = false := by decide
example : (check_contraindications "warfarin" ["recent surgery"]).is_safe = true := by decide
example : (check_contraindications "warfarin" ["recent surgery"]).risk_score = 25 := by decide
example : (check_contraindications "lisinopril" ["pregnancy"]).is_safe = false := by decide
example : normalize_drug_name "warfarin 5 mg tablets" = "warfarin_5" := by decide
example : normalize_drug_name "lisinopril tablets 10mg" = "lisinopril" := by decide
example : normalize_drug_name "Tylenol" = "acetaminophen" := by decide
example : normalize_condition "Kidney Failure" = "kidney_disease_severe" := by decide
example : normalize_symptom "I have severe headache" = "severe headache" := by decide
example : normalize_symptom "severe severe headache" = "severe headache" := by decide
example : normalize_symptom "chronic back pain" = "back" := by decide